import Mathlib

/-!
Verification development for the OpenChannel cross-section geometry module
(`ChannelGeometry.py`).

Two layers are embedded:

* a Python-semantics layer (`PyVal`, `PyFloat`, the `*Py` structures) that
  models the module's runtime behaviour faithfully: the
  `isinstance(v, (float, int))` / `v <= 0` validation (including the facts
  that Python `bool` is a subclass of `int` and that comparisons against
  `nan` are `False`), `ValueError` raising, and the arity mismatches in the
  source (`Rectangular.shape_function` calls `self.wetted_perimeter()`
  with no argument; the inherited `hydraulic_radius`/`hydraulic_depth`
  pass a depth to the zero-argument `area` of `Triangular`, `Trapezoidal`
  and `Circular`);

* a real-number layer (`Rectangular`, `Triangular`, `Trapezoidal`,
  `Circular` over `ℝ`) for the closed-form geometric formulas, which the
  source evaluates in floating point.

Finite float values are carried as exact rationals in the Python layer and
the transcendental formulas are stated over `ℝ`; signed zero and rounding
are not modelled (no claim depends on them).
-/

/-- Model of a Python `float` value: a finite value (carried exactly as a
rational), `nan`, `inf` or `-inf`. -/
inductive PyFloat where
  | fin : ℚ → PyFloat
  | nan : PyFloat
  | inf : PyFloat
  | ninf : PyFloat
deriving DecidableEq, Repr

namespace PyFloat

/-- Python `<=` on floats; every comparison involving `nan` is `False`. -/
def le : PyFloat → PyFloat → Bool
  | fin a, fin b => decide (a ≤ b)
  | nan, _ => false
  | _, nan => false
  | ninf, _ => true
  | _, ninf => false
  | inf, inf => true
  | inf, fin _ => false
  | fin _, inf => true

/-- Python `<` on floats; every comparison involving `nan` is `False`. -/
def lt : PyFloat → PyFloat → Bool
  | fin a, fin b => decide (a < b)
  | nan, _ => false
  | _, nan => false
  | ninf, ninf => false
  | ninf, _ => true
  | _, ninf => false
  | inf, _ => false
  | _, inf => true

/-- Python float multiplication with IEEE `nan`/`inf` propagation. -/
def mul : PyFloat → PyFloat → PyFloat
  | fin a, fin b => fin (a * b)
  | nan, _ => nan
  | _, nan => nan
  | inf, inf => inf
  | inf, ninf => ninf
  | ninf, inf => ninf
  | ninf, ninf => inf
  | inf, fin b => if 0 < b then inf else if b < 0 then ninf else nan
  | fin a, inf => if 0 < a then inf else if a < 0 then ninf else nan
  | ninf, fin b => if 0 < b then ninf else if b < 0 then inf else nan
  | fin a, ninf => if 0 < a then ninf else if a < 0 then inf else nan

/-- Python float addition with IEEE `nan`/`inf` propagation. -/
def add : PyFloat → PyFloat → PyFloat
  | fin a, fin b => fin (a + b)
  | nan, _ => nan
  | _, nan => nan
  | inf, ninf => nan
  | ninf, inf => nan
  | inf, _ => inf
  | _, inf => inf
  | ninf, _ => ninf
  | _, ninf => ninf

end PyFloat

deriving instance DecidableEq for Except

/-- Errors a call into the module can raise. -/
inductive PyError where
  | valueError : String → PyError
  | typeError : String → PyError
  | zeroDivisionError : PyError
deriving DecidableEq, Repr

/-- Model of the Python values callers pass to the module: booleans,
integers, floats and strings (the kinds exercised by the test suite). -/
inductive PyVal where
  | bool : Bool → PyVal
  | int : ℤ → PyVal
  | float : PyFloat → PyVal
  | str : String → PyVal
deriving DecidableEq, Repr

namespace PyVal

/-- Python `isinstance(v, (float, int))`; `True` for `bool` values because
`bool` is a subclass of `int`. -/
def isNumber : PyVal → Bool
  | bool _ => true
  | int _ => true
  | float _ => true
  | str _ => false

/-- Numeric value of a `PyVal` as a float, as Python's arithmetic and
`float()` coercion produce it (`True ↦ 1.0`, `False ↦ 0.0`). Only applied
to values that passed `isinstance`, so the `str` case is never reached. -/
def toPyFloat : PyVal → PyFloat
  | bool b => .fin (if b then 1 else 0)
  | int n => .fin n
  | float f => f
  | str _ => .nan

/-- Real value of a finite numeric `PyVal`, used for the transcendental
`math.acos` computation stored by `Circular.__init__`. `nan`/`inf`/string
inputs have no real value and are mapped to `0`; no claim evaluates the
stored angle on such inputs. -/
def toR : PyVal → ℝ
  | bool b => if b then 1 else 0
  | int n => n
  | float (.fin q) => q
  | float _ => 0
  | str _ => 0

end PyVal

/-- The validation used throughout `ChannelGeometry.py`:
`not isinstance(v, (float, int)) or v <= 0` raises, so a value is accepted
iff it is numeric and `v <= 0` is `False`. `nan` is accepted (its
comparison with `0` is `False`) and so is `inf`; `True` is accepted as `1`
and `False` rejected as `0`. -/
def checkPos (v : PyVal) : Bool :=
  v.isNumber && !(v.toPyFloat.le (.fin 0))

/-- Division as Python performs it on the module's floats: a zero divisor
raises `ZeroDivisionError`, otherwise IEEE semantics (signed zero is not
modelled). -/
def PyFloat.div (a b : PyFloat) : Except PyError PyFloat :=
  match b with
  | .fin q =>
      if q = 0 then .error .zeroDivisionError
      else
        match a with
        | .fin p => .ok (.fin (p / q))
        | .nan => .ok .nan
        | .inf => .ok (if 0 < q then .inf else .ninf)
        | .ninf => .ok (if 0 < q then .ninf else .inf)
  | .nan => .ok .nan
  | .inf =>
      match a with
      | .fin _ => .ok (.fin 0)
      | _ => .ok .nan
  | .ninf =>
      match a with
      | .fin _ => .ok (.fin 0)
      | _ => .ok .nan

/-- `Rectangular` as the source defines it: `__init__` validates `width`
and stores `self.width = float(width)`; every query takes `depth`
per call. -/
structure RectangularPy where
  width : PyFloat
deriving DecidableEq, Repr

namespace RectangularPy

/-- Constructor `Rectangular.__init__`. -/
def make (width : PyVal) : Except PyError RectangularPy :=
  if !(checkPos width) then .error (.valueError "Width must be a positive number")
  else .ok ⟨width.toPyFloat⟩

/-- Method `Rectangular.area`: validate `depth`, return `depth * self.width`. -/
def area (r : RectangularPy) (depth : PyVal) : Except PyError PyFloat :=
  if !(checkPos depth) then .error (.valueError "Depth must be a positive number")
  else .ok (depth.toPyFloat.mul r.width)

/-- Method `Rectangular.wetted_perimeter`: `self.width + 2 * depth`. -/
def wetted_perimeter (r : RectangularPy) (depth : PyVal) : Except PyError PyFloat :=
  if !(checkPos depth) then .error (.valueError "Depth must be a positive number")
  else .ok (r.width.add ((PyFloat.fin 2).mul depth.toPyFloat))

/-- Method `Rectangular.top_width`: validates `depth` and returns
`self.width`. -/
def top_width (r : RectangularPy) (depth : PyVal) : Except PyError PyFloat :=
  if !(checkPos depth) then .error (.valueError "Depth must be a positive number")
  else .ok r.width

/-- Method `Rectangular.shape_function`. After validating `depth` the body
evaluates `self.wetted_perimeter()(depth)`: `wetted_perimeter` requires a
positional `depth` argument, so the zero-argument call raises `TypeError`
before any division happens. -/
def shape_function (_r : RectangularPy) (depth : PyVal) : Except PyError PyFloat :=
  if !(checkPos depth) then .error (.valueError "Depth must be a positive number")
  else .error (.typeError "wetted_perimeter() missing 1 required positional argument: 'depth'")

/-- Inherited `ChannelXSection.hydraulic_radius`: validate `y`, then return
`self.area(y) / self.wetted_perimeter(y)`. On `Rectangular` both calls
succeed (each re-validates `y` and passes). -/
def hydraulic_radius (r : RectangularPy) (y : PyVal) : Except PyError PyFloat :=
  if !(checkPos y) then .error (.valueError "Depth must be a positive number")
  else do
    let a ← r.area y
    let p ← r.wetted_perimeter y
    a.div p

/-- Inherited `ChannelXSection.hydraulic_depth`: validate `y`, then return
`self.area(y) / self.top_width(y)`. -/
def hydraulic_depth (r : RectangularPy) (y : PyVal) : Except PyError PyFloat :=
  if !(checkPos y) then .error (.valueError "Depth must be a positive number")
  else do
    let a ← r.area y
    let t ← r.top_width y
    a.div t

end RectangularPy

/-- `Triangular` as the source defines it: `__init__(self, depth, side_slope)`
validates both arguments and stores both raw values on the instance;
the queries (`area`, `wetted_perimeter`, `top_width`, `shape_function`)
take no depth argument at all. -/
structure TriangularPy where
  depth : PyVal
  side_slope : PyVal
deriving DecidableEq, Repr

namespace TriangularPy

/-- Constructor `Triangular.__init__(depth, side_slope)`: depth is a required
constructor argument and is stored on the instance. -/
def make (depth side_slope : PyVal) : Except PyError TriangularPy :=
  if !(checkPos depth) then .error (.valueError "Depth must be a positive number")
  else if !(checkPos side_slope) then
    .error (.valueError "Side slope must be a positive number")
  else .ok ⟨depth, side_slope⟩

/-- Calling `t.area(y)` with a depth argument, as the inherited
`hydraulic_radius` and the test suite do: `Triangular.area(self)` accepts
no further positional argument, so Python raises `TypeError` at the call. -/
def areaCall (_t : TriangularPy) (_y : PyVal) : Except PyError PyFloat :=
  .error (.typeError "area() takes 1 positional argument but 2 were given")

/-- Inherited `ChannelXSection.hydraulic_radius` on a `Triangular` instance:
it validates `y` and then evaluates `self.area(y)`, which raises
`TypeError` because `Triangular.area` takes no depth argument. -/
def hydraulic_radius (t : TriangularPy) (y : PyVal) : Except PyError PyFloat :=
  if !(checkPos y) then .error (.valueError "Depth must be a positive number")
  else t.areaCall y

end TriangularPy

/-- `Trapezoidal` as the source defines it: `__init__(self, width, depth,
side_slope)` validates all three arguments and stores all three raw values
on the instance; the queries take no depth argument. -/
structure TrapezoidalPy where
  width : PyVal
  depth : PyVal
  side_slope : PyVal
deriving DecidableEq, Repr

namespace TrapezoidalPy

/-- Constructor `Trapezoidal.__init__(width, depth, side_slope)`: depth is a
required constructor argument and is stored on the instance. -/
def make (width depth side_slope : PyVal) : Except PyError TrapezoidalPy :=
  if !(checkPos width) then .error (.valueError "Width must be a positive number")
  else if !(checkPos depth) then .error (.valueError "Depth must be a positive number")
  else if !(checkPos side_slope) then
    .error (.valueError "Side slope must be a positive number")
  else .ok ⟨width, depth, side_slope⟩

end TrapezoidalPy

/-- `Circular` as the source defines it: `__init__(self, diameter, depth)`
validates `diameter > 0`, `depth > 0` and `depth <= diameter`, then stores
`diameter`, `depth` and the cached central angle
`self.theta = 2 * math.acos(1 - (2 * depth) / diameter)`; the queries take
no depth argument and perform no validation of their own. -/
structure CircularPy where
  diameter : PyVal
  depth : PyVal
  theta : ℝ

namespace CircularPy

/-- Constructor `Circular.__init__(diameter, depth)`: all validation happens
here, once, and `theta` is computed here, once, from the stored depth
(noncomputable only because Lean's `Real.arccos`, standing in for
`math.acos`, is). -/
noncomputable def make (diameter depth : PyVal) : Except PyError CircularPy :=
  if !(checkPos diameter) then .error (.valueError "Diameter must be a positive number")
  else if !(checkPos depth) then .error (.valueError "Depth must be a positive number")
  else if PyFloat.lt diameter.toPyFloat depth.toPyFloat then
    .error (.valueError "Depth must be smaller or equal than diameter")
  else .ok ⟨diameter, depth, 2 * Real.arccos (1 - 2 * depth.toR / diameter.toR)⟩

/-- Calling `c.area(y)` with a depth argument, as the test suite does:
`Circular.area(self)` accepts no further positional argument, so Python
raises `TypeError`; in particular no `ValueError` is raised for an
out-of-range depth at query time. -/
def areaCall (_c : CircularPy) (_y : PyVal) : Except PyError PyFloat :=
  .error (.typeError "area() takes 1 positional argument but 2 were given")

/-- Inherited `ChannelXSection.hydraulic_radius` on a `Circular` instance:
it validates `y` and then evaluates `self.area(y)`, which raises
`TypeError` because `Circular.area` takes no depth argument. -/
def hydraulic_radius (c : CircularPy) (y : PyVal) : Except PyError PyFloat :=
  if !(checkPos y) then .error (.valueError "Depth must be a positive number")
  else c.areaCall y

end CircularPy

/-! Real-number layer: the closed-form geometry, with each class's stored
numeric state as an `ℝ` field and each formula transcribed from the source
body. The source evaluates these in IEEE floating point; the claims about
formula identity, monotonicity and exact values live here. -/

noncomputable section

/-- Real-valued `Rectangular` state: `self.width`. -/
structure Rectangular where
  width : ℝ

namespace Rectangular

/-- Body of `Rectangular.area`: `depth * self.width`. -/
def area (r : Rectangular) (depth : ℝ) : ℝ := depth * r.width

/-- Body of `Rectangular.wetted_perimeter`: `self.width + 2 * depth`. -/
def wetted_perimeter (r : Rectangular) (depth : ℝ) : ℝ := r.width + 2 * depth

/-- Body of `Rectangular.top_width`: `self.width`, independent of `depth`. -/
def top_width (r : Rectangular) (_depth : ℝ) : ℝ := r.width

/-- Modelled from the spec: the formula §4.2 gives for
`Rectangular.shape_function`, `(5w + 6y) / (3y·(w + 2y))`, which the test
suite's expected value `0.7380952380952381` matches. The source body
instead raises `TypeError` (see `RectangularPy.shape_function`), so the
value the spec assigns is kept as a separate definition for comparison. -/
def shape_function_spec (r : Rectangular) (depth : ℝ) : ℝ :=
  (5 * r.width + 6 * depth) / (3 * depth * (r.width + 2 * depth))

end Rectangular

/-- Real-valued `Triangular` state: `self.depth` and `self.side_slope`,
both fixed by the constructor. -/
structure Triangular where
  depth : ℝ
  side_slope : ℝ

namespace Triangular

/-- Body of `Triangular.area`: `self.side_slope * self.depth ** 2`. -/
def area (t : Triangular) : ℝ := t.side_slope * t.depth ^ 2

/-- Body of `Triangular.wetted_perimeter`:
`2 * self.depth * math.sqrt(1 + self.side_slope ** 2)`. -/
def wetted_perimeter (t : Triangular) : ℝ :=
  2 * t.depth * Real.sqrt (1 + t.side_slope ^ 2)

/-- Body of `Triangular.top_width`: `2 * self.depth * self.side_slope`. -/
def top_width (t : Triangular) : ℝ := 2 * t.depth * t.side_slope

/-- Body of `Triangular.shape_function`: `8 / (3 * self.depth)`. -/
def shape_function (t : Triangular) : ℝ := 8 / (3 * t.depth)

end Triangular

/-- Real-valued `Trapezoidal` state: `self.width`, `self.depth` and
`self.side_slope`, all fixed by the constructor. -/
structure Trapezoidal where
  width : ℝ
  depth : ℝ
  side_slope : ℝ

namespace Trapezoidal

/-- Body of `Trapezoidal.area`:
`(self.width + self.side_slope * self.depth) * self.depth`. -/
def area (t : Trapezoidal) : ℝ := (t.width + t.side_slope * t.depth) * t.depth

/-- Body of `Trapezoidal.wetted_perimeter`:
`self.width + 2 * self.depth * math.sqrt(1 + self.side_slope ** 2)`. -/
def wetted_perimeter (t : Trapezoidal) : ℝ :=
  t.width + 2 * t.depth * Real.sqrt (1 + t.side_slope ^ 2)

/-- Body of `Trapezoidal.top_width`:
`self.width + 2 * self.depth * self.side_slope`. -/
def top_width (t : Trapezoidal) : ℝ := t.width + 2 * t.depth * t.side_slope

/-- Body of `Trapezoidal.shape_function`: with `A = sqrt(1 + side_slope²)`,
numerator `top_width() * (5*width + 6*depth*A) + 4*side_slope*depth²*A`,
denominator `3*depth * (width + depth*side_slope) * (width + 2*depth*A)`. -/
def shape_function (t : Trapezoidal) : ℝ :=
  (t.top_width * (5 * t.width + 6 * t.depth * Real.sqrt (1 + t.side_slope ^ 2))
      + 4 * t.side_slope * t.depth ^ 2 * Real.sqrt (1 + t.side_slope ^ 2))
    / (3 * t.depth * (t.width + t.depth * t.side_slope)
        * (t.width + 2 * t.depth * Real.sqrt (1 + t.side_slope ^ 2)))

end Trapezoidal

/-- Real-valued `Circular` state: `self.diameter` and `self.depth`, fixed
by the constructor. -/
structure Circular where
  diameter : ℝ
  depth : ℝ

namespace Circular

/-- The value `Circular.__init__` stores in `self.theta`:
`2 * math.acos(1 - (2 * depth) / diameter)`. Every instance carries
exactly this value, so it is written as a function of the stored fields. -/
noncomputable def theta (c : Circular) : ℝ :=
  2 * Real.arccos (1 - 2 * c.depth / c.diameter)

/-- Body of `Circular.area`:
`(1/8) * (self.theta - math.sin(self.theta)) * self.diameter ** 2`. -/
noncomputable def area (c : Circular) : ℝ :=
  1 / 8 * (c.theta - Real.sin c.theta) * c.diameter ^ 2

/-- Body of `Circular.wetted_perimeter`: `1/2 * self.theta * self.diameter`. -/
noncomputable def wetted_perimeter (c : Circular) : ℝ :=
  1 / 2 * c.theta * c.diameter

/-- Body of `Circular.top_width`: `math.sin(self.theta / 2) * self.diameter`. -/
noncomputable def top_width (c : Circular) : ℝ :=
  Real.sin (c.theta / 2) * c.diameter

/-- Body of `Circular.shape_function`:
`4*(2*sin θ + 3θ - 5θ*cos θ) / (3*diameter*θ*(θ - sin θ)*sin(θ/2))`. -/
noncomputable def shape_function (c : Circular) : ℝ :=
  4 * (2 * Real.sin c.theta + 3 * c.theta - 5 * c.theta * Real.cos c.theta)
    / (3 * c.diameter * c.theta * (c.theta - Real.sin c.theta)
        * Real.sin (c.theta / 2))

end Circular

end

/-! Helper lemmas shared between claims. -/

/-- Evaluation of `Circular(2, 1)`: construction succeeds, stores both
arguments and caches `theta = 2·acos(1 - 2·1/2) = 2·acos 0 = π`. -/
theorem circularPy_make_two_one :
    CircularPy.make (.int 2) (.int 1) = .ok ⟨.int 2, .int 1, Real.pi⟩ := by
  rw [CircularPy.make]
  norm_num [checkPos, PyVal.isNumber, PyVal.toPyFloat, PyFloat.le, PyFloat.lt,
    PyVal.toR, Real.arccos_zero]
  ring

/-- Claim C1: the spec and the test suite expect
`Rectangular(10).shape_function(2) ≈ 0.738095 = 31/42`, but the source body
evaluates `self.wetted_perimeter()(depth)` and the zero-argument call to
`wetted_perimeter` raises `TypeError`, so the query fails for every valid
depth; the spec's formula `(5w + 6y)/(3y·(w + 2y))` does give `31/42`
at width 10, depth 2. -/
theorem claim_C1_shape_function_raises :
    (RectangularPy.make (.int 10)).bind (fun r => r.shape_function (.int 2))
      = .error (.typeError "wetted_perimeter() missing 1 required positional argument: 'depth'")
    ∧ Rectangular.shape_function_spec ⟨10⟩ 2 = 31 / 42 := by
  constructor
  · rfl
  · rw [Rectangular.shape_function_spec]
    norm_num

/-- Claim C2: contrary to the claim, the `Triangular`, `Trapezoidal` and
`Circular` constructors each take `depth` as a required argument and store
it on the instance (`Triangular(3, 2).depth == 3`, etc.), and their
queries take no per-call depth; only `Rectangular` matches the claimed
design. -/
theorem claim_C2_depth_stored_on_instance :
    TriangularPy.make (.int 3) (.int 2) = .ok ⟨.int 3, .int 2⟩
    ∧ TrapezoidalPy.make (.int 2) (.int 3) (.int 2) = .ok ⟨.int 2, .int 3, .int 2⟩
    ∧ (CircularPy.make (.int 2) (.int 1)).map CircularPy.depth = .ok (.int 1) := by
  refine ⟨by rfl, by rfl, ?_⟩
  rw [circularPy_make_two_one]
  rfl

/-- Claim C3: the generic `hydraulic_radius` works for `Rectangular`
(`Rectangular(10).hydraulic_radius(2) = 20/14 = 10/7`), but on
`Triangular` (and likewise `Trapezoidal`/`Circular`) the inherited method
passes `y` to the shape's zero-argument `area`, so the call raises
`TypeError` instead of returning `area(y)/wetted_perimeter(y)`. -/
theorem claim_C3_hydraulic_radius_arity :
    (TriangularPy.make (.int 2) (.int 2)).bind (fun t => t.hydraulic_radius (.int 2))
      = .error (.typeError "area() takes 1 positional argument but 2 were given")
    ∧ (RectangularPy.make (.int 10)).bind (fun r => r.hydraulic_radius (.int 2))
      = .ok (.fin (10 / 7))
    ∧ (RectangularPy.make (.int 10)).bind (fun r => r.hydraulic_depth (.int 2))
      = .ok (.fin 2) := by
  refine ⟨by rfl, ?_, ?_⟩ <;>
    · show Except.ok (RectangularPy.mk (.fin 10)) >>= _ = _
      norm_num [Bind.bind, Except.instMonad, Except.bind,
        RectangularPy.hydraulic_radius, RectangularPy.hydraulic_depth,
        RectangularPy.area, RectangularPy.wetted_perimeter, RectangularPy.top_width,
        checkPos, PyVal.isNumber, PyVal.toPyFloat, PyFloat.le, PyFloat.mul, PyFloat.add,
        PyFloat.div]

/-- Claim C7: `Triangular.shape_function` is exactly `8 / (3·depth)`,
independent of the side slope, equal to `4/3` at depth `2` and `8/3` at
depth `1` for every side slope. -/
theorem claim_C7_triangular_shape_function :
    (∀ y m : ℝ, Triangular.shape_function ⟨y, m⟩ = 8 / (3 * y))
    ∧ (∀ m : ℝ, Triangular.shape_function ⟨2, m⟩ = 4 / 3)
    ∧ (∀ m : ℝ, Triangular.shape_function ⟨1, m⟩ = 8 / 3) := by
  refine ⟨fun y m => rfl, fun m => ?_, fun m => ?_⟩ <;>
    rw [Triangular.shape_function] <;> norm_num

/-- Claim C10: Python's `bool` passes the `isinstance((float, int))` and
`> 0` validation, so `True` is accepted wherever a positive number is
required: `Rectangular(True)` stores `width = 1.0`,
`Rectangular(w).area(True)` returns `w`, `Triangular(True, True)`
constructs, while `False` is rejected exactly like `0`. -/
theorem claim_C10_bool_accepted :
    checkPos (.bool true) = true
    ∧ checkPos (.bool false) = false
    ∧ checkPos (.int 0) = false
    ∧ RectangularPy.make (.bool true) = .ok ⟨.fin 1⟩
    ∧ (∀ w : ℚ, RectangularPy.area ⟨.fin w⟩ (.bool true) = .ok (.fin w))
    ∧ RectangularPy.make (.bool false)
        = .error (.valueError "Width must be a positive number")
    ∧ TriangularPy.make (.bool true) (.bool true) = .ok ⟨.bool true, .bool true⟩ := by
  refine ⟨by rfl, by rfl, by rfl, by rfl, fun w => ?_, by rfl, by rfl⟩
  rw [RectangularPy.area]
  norm_num [checkPos, PyVal.isNumber, PyVal.toPyFloat, PyFloat.le, PyFloat.mul]

/-- Claim C5: contrary to the claim, `Circular` validates `0 < depth ≤
diameter` once, in the constructor (where `Circular(1, 2)` and
`Circular(2, 0)` raise `ValueError`), caches `theta` there as instance
state (`Circular(2, 1).theta = π`), and its queries accept no depth at
all: calling `area` with a depth, as the tests do, raises `TypeError`,
never the claimed per-query `InvalidArgument`. -/
theorem claim_C5_validation_at_construction_only :
    CircularPy.make (.int 1) (.int 2)
      = .error (.valueError "Depth must be smaller or equal than diameter")
    ∧ CircularPy.make (.int 2) (.int 0)
      = .error (.valueError "Depth must be a positive number")
    ∧ (CircularPy.make (.int 2) (.int 1)).map CircularPy.theta = .ok Real.pi
    ∧ (CircularPy.make (.int 2) (.int 1)).bind
        (fun c => c.areaCall (.float (.fin (5 / 2))))
      = .error (.typeError "area() takes 1 positional argument but 2 were given") := by
  refine ⟨?_, ?_, ?_, ?_⟩
  · rw [CircularPy.make]
    norm_num [checkPos, PyVal.isNumber, PyVal.toPyFloat, PyFloat.le, PyFloat.lt]
  · rw [CircularPy.make]
    norm_num [checkPos, PyVal.isNumber, PyVal.toPyFloat, PyFloat.le, PyFloat.lt]
  · rw [circularPy_make_two_one]
    rfl
  · rw [circularPy_make_two_one]
    rfl

/-- Claim C8, counterexample: `float('nan')` passes the module's depth
validation (both `isinstance` and the `<= 0` comparison, which is `False`
for `nan`), so `Rectangular(10).area(float('nan'))` raises nothing and
returns `nan` — the claim's required `InvalidArgument` failure does not
happen and a NaN is propagated into the result. -/
theorem claim_C8_nan_counterexample :
    RectangularPy.area ⟨.fin 10⟩ (.float .nan) = .ok .nan := by
  rfl

/-- Claim C8 as amended: for the operations that take a per-call depth
(`Rectangular`'s primitives and its inherited derived queries), a depth
that is non-numeric, zero or negative raises `ValueError` before any
computation; but `nan` and `inf` pass the validation (a `nan` comparison
is `False`, `inf > 0`), so `area` returns `nan` for a `nan` depth and
`inf` for an `inf` depth instead of failing. -/
theorem claim_C8_amended_validation :
    (∀ (w : ℚ) (v : PyVal), v.isNumber = false ∨ v.toPyFloat.le (.fin 0) = true →
      RectangularPy.area ⟨.fin w⟩ v = .error (.valueError "Depth must be a positive number")
      ∧ RectangularPy.wetted_perimeter ⟨.fin w⟩ v
          = .error (.valueError "Depth must be a positive number")
      ∧ RectangularPy.top_width ⟨.fin w⟩ v
          = .error (.valueError "Depth must be a positive number")
      ∧ RectangularPy.shape_function ⟨.fin w⟩ v
          = .error (.valueError "Depth must be a positive number")
      ∧ RectangularPy.hydraulic_radius ⟨.fin w⟩ v
          = .error (.valueError "Depth must be a positive number")
      ∧ RectangularPy.hydraulic_depth ⟨.fin w⟩ v
          = .error (.valueError "Depth must be a positive number"))
    ∧ (∀ w : ℚ, RectangularPy.area ⟨.fin w⟩ (.float .nan) = .ok .nan)
    ∧ (∀ w : ℚ, 0 < w → RectangularPy.area ⟨.fin w⟩ (.float .inf) = .ok .inf) := by
  refine ⟨fun w v hv => ?_, fun w => rfl, fun w hw => ?_⟩
  · have hc : checkPos v = false := by
      rcases hv with h | h <;> simp [checkPos, h]
    rw [RectangularPy.area, RectangularPy.wetted_perimeter, RectangularPy.top_width,
      RectangularPy.shape_function, RectangularPy.hydraulic_radius,
      RectangularPy.hydraulic_depth]
    simp [hc]
  · rw [RectangularPy.area]
    norm_num [checkPos, PyVal.isNumber, PyVal.toPyFloat, PyFloat.le, PyFloat.mul, hw]

/-- Witness for the amended claim C8 at the concrete input `'foo'`. -/
theorem claim_C8_amended_validation_witness :
    (PyVal.str "foo").isNumber = false
    ∧ RectangularPy.area ⟨.fin 10⟩ (.str "foo")
        = .error (.valueError "Depth must be a positive number") :=
  ⟨rfl, (claim_C8_amended_validation.1 10 (.str "foo") (Or.inl rfl)).1⟩

/-- Claim C9: the stored angle and the three primitives follow the claimed
formulas — at diameter 2, depth 1 the constructor caches `θ = π` and the
queries give `area = π/2`, `wettedPerimeter = π`, `topWidth = 2` — but the
claimed `hydraulicRadius = 0.5` is unreachable: the inherited
`hydraulic_radius` passes its depth to `Circular.area`, which takes no
argument, so the call raises `TypeError` (the tests expect `0.5`). -/
theorem claim_C9_circular_half_full :
    Circular.theta ⟨2, 1⟩ = Real.pi
    ∧ Circular.area ⟨2, 1⟩ = Real.pi / 2
    ∧ Circular.wetted_perimeter ⟨2, 1⟩ = Real.pi
    ∧ Circular.top_width ⟨2, 1⟩ = 2
    ∧ (CircularPy.make (.int 2) (.int 1)).bind (fun c => c.hydraulic_radius (.int 1))
      = .error (.typeError "area() takes 1 positional argument but 2 were given") := by
  have hth : Circular.theta ⟨2, 1⟩ = Real.pi := by
    rw [Circular.theta]
    norm_num [Real.arccos_zero]
    ring
  refine ⟨hth, ?_, ?_, ?_, ?_⟩
  · rw [Circular.area, hth]
    norm_num [Real.sin_pi]
    ring
  · rw [Circular.wetted_perimeter, hth]
    ring
  · rw [Circular.top_width, hth]
    norm_num [Real.sin_pi_div_two]
  · rw [circularPy_make_two_one]
    rfl

/-- Claim C6: `Trapezoidal.shape_function` is exactly the claimed quotient
with the two numerator terms combined additively (with `A = √(1+m²)`,
`[topWidth·(5w + 6y·A) + 4m·y²·A] / [3y·(w + y·m)·(w + 2y·A)]`), and at
width 2, side slope 2, depth 2 its value `(100 + 152√5)/(72 + 144√5)` is
within `10⁻⁵` of `1.116470`. -/
theorem claim_C6_trapezoidal_shape_function :
    (∀ w m y : ℝ, Trapezoidal.shape_function ⟨w, y, m⟩
        = ((w + 2 * y * m) * (5 * w + 6 * y * Real.sqrt (1 + m ^ 2))
            + 4 * m * y ^ 2 * Real.sqrt (1 + m ^ 2))
          / (3 * y * (w + y * m) * (w + 2 * y * Real.sqrt (1 + m ^ 2))))
    ∧ |Trapezoidal.shape_function ⟨2, 2, 2⟩ - 1.116470| < 1 / 100000 := by
  constructor
  · intro w m y
    rfl
  · have hsq : Real.sqrt 5 * Real.sqrt 5 = 5 := Real.mul_self_sqrt (by norm_num)
    have hnn : (0:ℝ) ≤ Real.sqrt 5 := Real.sqrt_nonneg 5
    have hlb : (2.23606:ℝ) < Real.sqrt 5 := by nlinarith
    have hub : Real.sqrt 5 < (2.23607:ℝ) := by nlinarith
    have h15 : Real.sqrt (1 + (2:ℝ) ^ 2) = Real.sqrt 5 := by norm_num
    have hval : Trapezoidal.shape_function ⟨2, 2, 2⟩
        = (100 + 152 * Real.sqrt 5) / (72 + 144 * Real.sqrt 5) := by
      rw [Trapezoidal.shape_function]
      simp only [Trapezoidal.top_width, h15]
      norm_num
      rw [div_eq_div_iff] <;> nlinarith
    rw [hval, abs_sub_lt_iff]
    have hden : (0:ℝ) < 72 + 144 * Real.sqrt 5 := by nlinarith
    constructor
    · rw [sub_lt_iff_lt_add, div_lt_iff₀ hden]
      nlinarith
    · have h2 : (1.116470 - 1 / 100000 : ℝ)
          < (100 + 152 * Real.sqrt 5) / (72 + 144 * Real.sqrt 5) := by
        rw [lt_div_iff₀ hden]
        nlinarith
      linarith

/-- The map `x ↦ x - sin x` is strictly increasing on `[0, 2π]`; it is the
depth-dependent factor of `Circular.area`. -/
theorem sub_sin_strictMonoOn :
    StrictMonoOn (fun x : ℝ => x - Real.sin x) (Set.Icc 0 (2 * Real.pi)) := by
  apply strictMonoOn_of_deriv_pos (convex_Icc _ _)
  · exact (continuous_id.sub Real.continuous_sin).continuousOn
  · intro x hx
    rw [interior_Icc] at hx
    have hder : HasDerivAt (fun x : ℝ => x - Real.sin x) (1 - Real.cos x) x :=
      (hasDerivAt_id x).sub (Real.hasDerivAt_sin x)
    rw [hder.deriv]
    have hne : Real.cos x ≠ 1 := by
      rw [Ne, Real.cos_eq_one_iff_of_lt_of_lt
        (by linarith [hx.1, Real.two_pi_pos]) hx.2]
      exact ne_of_gt hx.1
    rcases (Real.cos_le_one x).lt_or_eq with h | h
    · linarith
    · exact absurd h hne

/-- The angle `Circular.__init__` stores is strictly increasing in the
construction depth, for depths within the pipe. -/
theorem circular_theta_lt (d y1 y2 : ℝ) (hd : 0 < d) (hy1 : 0 < y1)
    (h12 : y1 < y2) (h2d : y2 ≤ d) :
    Circular.theta ⟨d, y1⟩ < Circular.theta ⟨d, y2⟩ := by
  rw [Circular.theta, Circular.theta]
  have harg : ∀ y : ℝ, 0 < y → y ≤ d → 1 - 2 * y / d ∈ Set.Icc (-1 : ℝ) 1 := by
    intro y hy hyd
    constructor
    · have h2 : 2 * y / d ≤ 2 := by
        rw [div_le_iff₀ hd]; linarith
      linarith
    · have h0 : 0 < 2 * y / d := by positivity
      linarith
  have hlt : 1 - 2 * y2 / d < 1 - 2 * y1 / d := by
    have h : 2 * y1 / d < 2 * y2 / d := by
      rw [div_lt_div_iff₀ hd hd]
      nlinarith
    linarith
  have := Real.strictAntiOn_arccos
    (harg y2 (lt_trans hy1 h12) h2d) (harg y1 hy1 (le_of_lt (lt_of_lt_of_le h12 h2d))) hlt
  simp only at this
  linarith

/-- The angle `Circular.__init__` stores always lies in `[0, 2π]`. -/
theorem circular_theta_mem (d y : ℝ) :
    Circular.theta ⟨d, y⟩ ∈ Set.Icc (0:ℝ) (2 * Real.pi) := by
  rw [Circular.theta]
  constructor
  · have := Real.arccos_nonneg (1 - 2 * y / d)
    simp only
    linarith
  · have := Real.arccos_le_pi (1 - 2 * y / d)
    simp only
    linarith

/-- Conclusion of the amended claim C4 at width `w`, side slope `m`,
diameter `d` and depths `y1 < y2`: `area` and `wetted_perimeter` increase
strictly for all four shapes, `top_width` increases strictly for
`Triangular` and `Trapezoidal`, and `Rectangular.top_width` is constant
(`Circular.top_width` is not monotone; see the counterexample). -/
def StrictIncreaseAt (w m d y1 y2 : ℝ) : Prop :=
  (Rectangular.area ⟨w⟩ y1 < Rectangular.area ⟨w⟩ y2
    ∧ Rectangular.wetted_perimeter ⟨w⟩ y1 < Rectangular.wetted_perimeter ⟨w⟩ y2
    ∧ Rectangular.top_width ⟨w⟩ y1 = Rectangular.top_width ⟨w⟩ y2)
  ∧ (Triangular.area ⟨y1, m⟩ < Triangular.area ⟨y2, m⟩
    ∧ Triangular.wetted_perimeter ⟨y1, m⟩ < Triangular.wetted_perimeter ⟨y2, m⟩
    ∧ Triangular.top_width ⟨y1, m⟩ < Triangular.top_width ⟨y2, m⟩)
  ∧ (Trapezoidal.area ⟨w, y1, m⟩ < Trapezoidal.area ⟨w, y2, m⟩
    ∧ Trapezoidal.wetted_perimeter ⟨w, y1, m⟩ < Trapezoidal.wetted_perimeter ⟨w, y2, m⟩
    ∧ Trapezoidal.top_width ⟨w, y1, m⟩ < Trapezoidal.top_width ⟨w, y2, m⟩)
  ∧ (Circular.area ⟨d, y1⟩ < Circular.area ⟨d, y2⟩
    ∧ Circular.wetted_perimeter ⟨d, y1⟩ < Circular.wetted_perimeter ⟨d, y2⟩)

/-- Claim C4, counterexample: `top_width` is not strictly increasing for
every shape. `Rectangular(10).top_width` is the constant `10`
(`top_width(1) = top_width(2)`), and `Circular` with diameter 2 has
`top_width = 2` at depth 1 but `top_width = 0` at depth 2: it strictly
decreases past the half-full point. -/
theorem claim_C4_top_width_counterexample :
    Rectangular.top_width ⟨10⟩ 1 = Rectangular.top_width ⟨10⟩ 2
    ∧ (1:ℝ) < 2
    ∧ Circular.top_width ⟨2, 2⟩ < Circular.top_width ⟨2, 1⟩ := by
  refine ⟨rfl, by norm_num, ?_⟩
  have h1 : Circular.theta ⟨2, 1⟩ = Real.pi := by
    rw [Circular.theta]
    norm_num [Real.arccos_zero]
    ring
  have h2 : Circular.theta ⟨2, 2⟩ = 2 * Real.pi := by
    rw [Circular.theta]
    norm_num [Real.arccos_neg_one]
  rw [Circular.top_width, Circular.top_width, h1, h2]
  norm_num [Real.sin_pi, Real.sin_pi_div_two]

/-- Claim C4 as amended: over `0 < y1 < y2` (and `y2 ≤ d` for `Circular`),
`area` and `wetted_perimeter` are strictly increasing in depth for all
four shapes and `top_width` is strictly increasing for `Triangular` and
`Trapezoidal`, while `Rectangular.top_width` is constant in depth. -/
theorem claim_C4_amended_monotonicity :
    ∀ w m d y1 y2 : ℝ, 0 < w → 0 < m → 0 < d → 0 < y1 → y1 < y2 → y2 ≤ d →
      StrictIncreaseAt w m d y1 y2 := by
  intro w m d y1 y2 hw hm hd hy1 h12 h2d
  have hs : 0 < Real.sqrt (1 + m ^ 2) := Real.sqrt_pos.2 (by positivity)
  have hy2 : 0 < y2 := lt_trans hy1 h12
  refine ⟨⟨?_, ?_, rfl⟩, ⟨?_, ?_, ?_⟩, ⟨?_, ?_, ?_⟩, ?_, ?_⟩
  · rw [Rectangular.area, Rectangular.area]
    exact mul_lt_mul_of_pos_right h12 hw
  · rw [Rectangular.wetted_perimeter, Rectangular.wetted_perimeter]
    simp only
    linarith
  · rw [Triangular.area, Triangular.area]
    simp only
    nlinarith [mul_pos hm (mul_pos (sub_pos.2 h12) (add_pos hy1 hy2))]
  · rw [Triangular.wetted_perimeter, Triangular.wetted_perimeter]
    simp only
    nlinarith
  · rw [Triangular.top_width, Triangular.top_width]
    simp only
    nlinarith
  · rw [Trapezoidal.area, Trapezoidal.area]
    simp only
    nlinarith [mul_pos hw (sub_pos.2 h12),
      mul_pos hm (mul_pos (sub_pos.2 h12) (add_pos hy1 hy2))]
  · rw [Trapezoidal.wetted_perimeter, Trapezoidal.wetted_perimeter]
    simp only
    nlinarith
  · rw [Trapezoidal.top_width, Trapezoidal.top_width]
    simp only
    nlinarith
  · have hth := circular_theta_lt d y1 y2 hd hy1 h12 h2d
    have hg := sub_sin_strictMonoOn (circular_theta_mem d y1) (circular_theta_mem d y2) hth
    simp only at hg
    rw [Circular.area, Circular.area]
    simp only
    nlinarith [mul_pos (sub_pos.2 hg) (pow_pos hd 2)]
  · have hth := circular_theta_lt d y1 y2 hd hy1 h12 h2d
    rw [Circular.wetted_perimeter, Circular.wetted_perimeter]
    simp only
    nlinarith

/-- Witness for the amended claim C4 at `w = m = 1`, `d = 2`, depths `1 < 2`. -/
theorem claim_C4_amended_monotonicity_witness :
    (0:ℝ) < 1 ∧ (1:ℝ) < 2 ∧ (2:ℝ) ≤ 2 ∧ StrictIncreaseAt 1 1 2 1 2 :=
  ⟨by norm_num, by norm_num, by norm_num,
    claim_C4_amended_monotonicity 1 1 2 1 2 (by norm_num) (by norm_num) (by norm_num)
      (by norm_num) (by norm_num) (by norm_num)⟩
